import Mathlib

/-!
Shallow embedding of src/routes/page.ts from the notion-api-worker
repository: the call-budget guard (limitedApiCall), the bounded block-graph
expansion loop, the collection resolver and the error classifier inside
pageRoute.  JavaScript objects are modelled as insertion-ordered association
lists, thrown errors as Except String carrying the error message, and the
module-global apiCallCount as an explicitly threaded Nat.  The remote
collaborators (fetchPageById, fetchBlocks, getTableData, parsePageId) are
parameters gathered in an Env structure.  JavaScript dynamic failures
(property access on undefined, Object.keys of undefined) are modelled as
thrown errors with the corresponding V8 messages.
-/

deriving instance DecidableEq for Except

namespace NotionWorker

/-- Value part of a block record: the fields of BlockType that page.ts reads.
A missing content list or a missing view_ids list is None, matching a missing
JavaScript property. -/
structure BlockValue where
  id : String
  type : String
  content : Option (List String)
  view_ids : Option (List String)
deriving DecidableEq

/-- Value of a collection record; page.ts reads coll.value.name. -/
structure CollValue where
  id : String
  name : String
deriving DecidableEq

/-- A collection record: wrapper holding a value, as in the record map. -/
structure CollEntry where
  value : CollValue
deriving DecidableEq

/-- Value of a collection_view record; page.ts reads collView.value.id and
copies whole view values into the annotation, so an opaque extra field stands
for the remaining view fields. -/
structure ViewValue where
  id : String
  extra : String
deriving DecidableEq

/-- A collection_view record: wrapper holding a value. -/
structure ViewEntry where
  value : ViewValue
deriving DecidableEq

/-- Result of the getTableData collaborator: rows and schema are opaque to
page.ts, which only forwards them. -/
structure TableData where
  rows : List String
  schema : String
deriving DecidableEq

/-- The annotation spliced onto a collection_view block at lines 146-157 of
page.ts: collection { title, schema, types, data }. -/
structure ResolvedCollection where
  title : String
  schema : String
  types : List (Option ViewValue)
  data : List String
deriving DecidableEq

/-- A block record: an optional value, the optional collection annotation
added by the resolver, and an opaque extra field standing for any further
fields carried through object spreads. -/
structure Block where
  value : Option BlockValue
  collection : Option ResolvedCollection
  extra : String
deriving DecidableEq

/-- A JavaScript object mapping block ids to blocks, as an insertion-ordered
association list with unique keys. -/
abbrev BlockGraph := List (String × Block)

/-- The record map of a page response; collection and collection_view may be
absent. -/
structure RecordMap where
  block : BlockGraph
  collection : Option (List (String × CollEntry))
  collection_view : Option (List (String × ViewEntry))
deriving DecidableEq

/-- Response of fetchPageById (and, reusing the same shape, fetchBlocks,
of which page.ts only reads recordMap.block). -/
structure PageResp where
  recordMap : RecordMap
deriving DecidableEq

/-- The remote collaborators consumed by page.ts.  fetchPageById receives an
Option String because page.ts passes the possibly-null result of parsePageId
through a non-null assertion that has no runtime effect. -/
structure Env where
  parsePageId : String → Option String
  fetchPageById : Option String → String → Except String PageResp
  fetchBlocks : List String → String → Except String PageResp
  getTableData : CollEntry → String → String → Bool → Except String TableData

/-- The request value handed to pageRoute: req.params.pageId and
req.notionToken. -/
structure HandlerRequest where
  pageId : String
  notionToken : String

/-- Body of a response produced by createResponse: either the assembled
block graph or an error object with a message. -/
inductive Payload where
  | blocks : BlockGraph → Payload
  | error : String → Payload
deriving DecidableEq

/-- A response: body plus HTTP status (createResponse defaults to 200). -/
structure Response where
  body : Payload
  status : Nat
deriving DecidableEq

/-- JavaScript property lookup on an association list: first binding wins. -/
def lookupKey {α : Type} : List (String × α) → String → Option α
  | [], _ => none
  | p :: rest, k => if p.1 = k then some p.2 else lookupKey rest k

/-- JavaScript property assignment: replace the binding in place when the key
exists, otherwise append it. -/
def setKey {α : Type} (g : List (String × α)) (k : String) (v : α) :
    List (String × α) :=
  if (lookupKey g k).isSome then
    g.map (fun p => if p.1 = k then (k, v) else p)
  else
    g ++ [(k, v)]

/-- JavaScript object spread merge of two objects, as in the expression
with spread of allBlocks then newBlocks: keys of the first keep their
positions but take the second object's value when it has the key; keys only
in the second are appended in its order. -/
def jsMerge {α : Type} (a b : List (String × α)) : List (String × α) :=
  a.map (fun p => (p.1, (lookupKey b p.1).getD p.2)) ++
  b.filter (fun p => (lookupKey a p.1).isNone)

/-- First value of an object, as in indexing by the head of Object.keys:
None when the object is empty (indexing by undefined yields undefined). -/
def firstVal {α : Type} (m : List (String × α)) : Option α :=
  m.head?.map (fun p => p.2)

/-- Substring test on character lists, used to model String.prototype
includes. -/
def listContains (needle : List Char) : List Char → Bool
  | [] => needle.isEmpty
  | c :: rest => needle.isPrefixOf (c :: rest) || listContains needle rest

/-- Substring test on strings: hay contains needle. -/
def strContains (hay needle : String) : Bool :=
  listContains needle.data hay.data

/-- Line 8 of page.ts: safety margin below the Cloudflare limit of 50. -/
def MAX_API_CALLS : Nat := 45

/-- Line 41 of page.ts: at most two expansion rounds. -/
def MAX_ITERATIONS : Nat := 2

/-- Line 47 of page.ts: at most 20 candidate blocks fetched per round. -/
def MAX_BLOCKS_PER_ITERATION : Nat := 20

/-- Lines 12-21 of page.ts: the call-budget guard.  The counter is threaded
explicitly; the operation is the outcome the wrapped collaborator call would
produce.  At or above the ceiling the guard throws without incrementing and
without consulting the operation; below it the counter is incremented and the
operation's outcome is returned or propagated unchanged. -/
def limitedApiCall {α : Type} (maxCalls cnt : Nat) (apiCallFn : Except String α)
    (errorMessage : String) : Except String α × Nat :=
  if maxCalls ≤ cnt then
    (Except.error ("Too many API calls: " ++ errorMessage), cnt)
  else
    (apiCallFn, cnt + 1)

/-- Lines 50-63 of page.ts: the candidate child ids contributed by one block
of the graph.  A block with no value or no content list contributes nothing;
a block of type page whose id differs from the root page id is skipped; the
children already present in the graph are filtered out. -/
def candidatesOf (allBlocks : BlockGraph) (pageId : Option String)
    (blockId : String) : List String :=
  match lookupKey allBlocks blockId with
  | none => []
  | some block =>
    match block.value with
    | none => []
    | some v =>
      match v.content with
      | none => []
      | some content =>
        if v.type = "page" ∧ some blockId ≠ pageId then []
        else content.filter (fun id => (lookupKey allBlocks id).isNone)

/-- Lines 49-64 of page.ts: the pending block ids of one round, flattened in
graph key order and truncated to the per-round cap. -/
def pendingBlocksOf (allBlocks : BlockGraph) (pageId : Option String) :
    List String :=
  ((allBlocks.map (fun p => p.1)).flatMap (candidatesOf allBlocks pageId)).take
    MAX_BLOCKS_PER_ITERATION

/-- Lines 43-87 of page.ts: the expansion loop.  fuel counts the remaining
rounds (MAX_ITERATIONS at the entry), iteration the rounds already done (for
the label).  The loop stops when no candidates remain, stops early with the
partial graph when the budget is exhausted, and otherwise issues one guarded
batch fetch and merges the returned blocks into the graph. -/
def expandLoop (env : Env) (tok : String) (maxCalls : Nat)
    (pageId : Option String) :
    Nat → Nat → BlockGraph → Nat → Except String BlockGraph × Nat
  | 0, _, g, cnt => (Except.ok g, cnt)
  | fuel + 1, iteration, g, cnt =>
    if (pendingBlocksOf g pageId).isEmpty then (Except.ok g, cnt)
    else if maxCalls ≤ cnt then (Except.ok g, cnt)
    else
      match limitedApiCall maxCalls cnt
          (Except.map (fun r => r.recordMap.block)
            (env.fetchBlocks (pendingBlocksOf g pageId) tok))
          ("while fetching blocks batch " ++ toString (iteration + 1)) with
      | (Except.error e, cnt2) => (Except.error e, cnt2)
      | (Except.ok newBlocks, cnt2) =>
        expandLoop env tok maxCalls pageId fuel (iteration + 1)
          (jsMerge g newBlocks) cnt2

/-- Lines 121-159 of page.ts: processing of the fetched collection page.
When the fetched page has no collection entries the graph is returned
unchanged; when its collection map is non-empty but its collection_view map
is absent, Object.keys throws; the table data fetch is guarded again by the
budget; afterwards the original collection_view block is annotated. -/
def processCollPage (env : Env) (tok : String) (maxCalls : Nat) (b : String)
    (allBlocks : BlockGraph) (collPage : PageResp) (cnt : Nat) :
    Except String BlockGraph × Nat :=
  match collPage.recordMap.collection with
  | some (centry :: _) =>
    let coll := centry.2
    match collPage.recordMap.collection_view with
    | none => (Except.error "Cannot convert undefined or null to object", cnt)
    | some viewMap =>
      let collView := viewMap.head?.map (fun p => p.2)
      if cnt < maxCalls then
        let tableOutcome : Except String TableData :=
          match collView with
          | none =>
            Except.error "Cannot read properties of undefined (reading 'value')"
          | some cv => env.getTableData coll cv.value.id tok true
        match limitedApiCall maxCalls cnt tableOutcome
            "while fetching table data" with
        | (Except.error e, cnt2) => (Except.error e, cnt2)
        | (Except.ok td, cnt2) =>
          match lookupKey allBlocks b with
          | none =>
            (Except.error "Cannot read properties of undefined (reading 'value')",
              cnt2)
          | some blkB =>
            match blkB.value with
            | none =>
              (Except.error
                "Cannot read properties of undefined (reading 'view_ids')",
                cnt2)
            | some bv =>
              match bv.view_ids with
              | none =>
                (Except.error
                  "Cannot read properties of undefined (reading 'slice')",
                  cnt2)
              | some viewIds =>
                let limitedViewIds := viewIds.take 1
                let types := limitedViewIds.map (fun id =>
                  (lookupKey viewMap id).map (fun col => col.value))
                let ann : ResolvedCollection :=
                  { title := coll.value.name
                    schema := td.schema
                    types := types
                    data := td.rows }
                (Except.ok
                  (setKey allBlocks b { blkB with collection := some ann }),
                  cnt2)
      else (Except.ok allBlocks, cnt)
  | some [] => (Except.ok allBlocks, cnt)
  | none => (Except.ok allBlocks, cnt)

/-- Lines 99-161 of page.ts: the collection resolver.  It only runs when the
root page's record map yielded a collection and a collection view and the
budget still has capacity; it selects at most the first collection_view block
of the graph, fetches its page under the guard and hands over to
processCollPage. -/
def resolveCollection (env : Env) (tok : String) (maxCalls : Nat)
    (collection : Option CollEntry) (collectionView : Option ViewEntry)
    (allBlocks : BlockGraph) (cnt : Nat) : Except String BlockGraph × Nat :=
  match collection, collectionView with
  | some _, some _ =>
    if cnt < maxCalls then
      let pendingCollections :=
        ((allBlocks.map (fun p => p.1)).flatMap (fun blockId =>
          match lookupKey allBlocks blockId with
          | some block =>
            match block.value with
            | some v => if v.type = "collection_view" then [v.id] else []
            | none => []
          | none => [])).take 1
      match pendingCollections with
      | [] => (Except.ok allBlocks, cnt)
      | b :: _ =>
        match limitedApiCall maxCalls cnt (env.fetchPageById (some b) tok)
            "while fetching collection page" with
        | (Except.error e, cnt2) => (Except.error e, cnt2)
        | (Except.ok collPage, cnt2) =>
          processCollPage env tok maxCalls b allBlocks collPage cnt2
    else (Except.ok allBlocks, cnt)
  | _, _ => (Except.ok allBlocks, cnt)

/-- Lines 24-163 of page.ts inside the try: the counter is reset to zero,
the root page is fetched under the guard, the expansion loop runs, then the
collection resolver.  Returns the outcome and the final counter value. -/
def pageRouteBody (maxCalls : Nat) (env : Env) (req : HandlerRequest) :
    Except String BlockGraph × Nat :=
  let cnt := 0
  let pageId := env.parsePageId req.pageId
  match limitedApiCall maxCalls cnt (env.fetchPageById pageId req.notionToken)
      "while fetching initial page" with
  | (Except.error e, cnt1) => (Except.error e, cnt1)
  | (Except.ok page, cnt1) =>
    let allBlocks := page.recordMap.block
    match expandLoop env req.notionToken maxCalls pageId MAX_ITERATIONS 0
        allBlocks cnt1 with
    | (Except.error e, cnt2) => (Except.error e, cnt2)
    | (Except.ok allBlocks2, cnt2) =>
      let collection :=
        match page.recordMap.collection with
        | some m => firstVal m
        | none => none
      let collectionView :=
        match page.recordMap.collection_view with
        | some m => firstVal m
        | none => none
      resolveCollection env req.notionToken maxCalls collection collectionView
        allBlocks2 cnt2

/-- createResponse on the assembled graph: success payload, status 200. -/
def createResponse (g : BlockGraph) : Response :=
  { body := Payload.blocks g, status := 200 }

/-- Line 169 of page.ts: fallback message when the thrown error's message is
falsy. -/
def defaultErrorMessage : String := "An error occurred processing the page"

/-- Lines 164-179 of page.ts: the catch handler.  The message defaults when
empty; status 429 when it contains the budget-exceeded or the upstream
over-quota substring, 500 otherwise. -/
def classifyError (e : String) : Response :=
  let errorMessage := if e = "" then defaultErrorMessage else e
  let statusCode :=
    if strContains errorMessage "Too many API calls" ||
        strContains errorMessage "Too many subrequests" then 429
    else 500
  { body := Payload.error errorMessage, status := statusCode }

/-- pageRoute with an explicit ceiling: runs the body (which resets the
counter, so the incoming global counter value cnt0 is ignored) and renders
success or classified failure.  Returns the response and the final value of
the global counter. -/
def pageRouteWith (maxCalls : Nat) (env : Env) (req : HandlerRequest)
    (cnt0 : Nat) : Response × Nat :=
  let _ := cnt0
  match pageRouteBody maxCalls env req with
  | (Except.ok g, cnt) => (createResponse g, cnt)
  | (Except.error e, cnt) => (classifyError e, cnt)

/-- Lines 23-181 of page.ts: pageRoute with the source's ceiling of 45. -/
def pageRoute (env : Env) (req : HandlerRequest) (cnt0 : Nat) :
    Response × Nat :=
  pageRouteWith MAX_API_CALLS env req cnt0

/-! Concrete scenario inputs used by the claim theorems, witnesses and
counterexamples. -/

/-- Shared request value for the concrete scenarios. -/
def reqX : HandlerRequest := { pageId := "raw-page-id", notionToken := "tok" }

/-- Empty record map, used for batch responses that return no blocks. -/
def emptyRM : RecordMap :=
  { block := [], collection := none, collection_view := none }

/-- A collection entry sitting in root record maps to enable the resolver. -/
def rcEntry : CollEntry := { value := { id := "rc", name := "RootColl" } }

/-- A collection_view entry sitting in root record maps to enable the
resolver. -/
def rvEntry : ViewEntry := { value := { id := "rv", extra := "rootview" } }

/-- Scenario for C3: a plain child block returned by the batch fetch. -/
def childBlkC3 : Block :=
  { value := some
      { id := "child1", type := "text", content := none, view_ids := none }
    collection := none
    extra := "" }

/-- Scenario for C3: a collection_view block with one unknown child. -/
def cvBlkC3 : Block :=
  { value := some
      { id := "cv1", type := "collection_view", content := some ["child1"]
        view_ids := some ["viewA"] }
    collection := none
    extra := "" }

/-- Scenario for C3: root page whose record map has a collection and a
collection view, and whose graph will need one batch fetch. -/
def rootPageC3 : PageResp :=
  { recordMap :=
      { block := [("cv1", cvBlkC3)]
        collection := some [("rc", rcEntry)]
        collection_view := some [("rv", rvEntry)] } }

/-- Scenario for C3: environment where the root fetch and one batch fetch
consume the whole ceiling of 2. -/
def envC3 : Env :=
  { parsePageId := fun _ => some "root"
    fetchPageById := fun _ _ => Except.ok rootPageC3
    fetchBlocks := fun _ _ => Except.ok
      { recordMap :=
          { block := [("child1", childBlkC3)], collection := none
            collection_view := none } }
    getTableData := fun _ _ _ _ => Except.ok { rows := [], schema := "" } }

/-- Scenario for C4: the block initially stored under key a. -/
def blkAC4 : Block :=
  { value := some
      { id := "a", type := "text", content := some ["b"], view_ids := none }
    collection := none
    extra := "orig" }

/-- Scenario for C4: a conflicting block for key a returned by the batch
fetch. -/
def blkA2C4 : Block :=
  { value := some
      { id := "a", type := "text", content := none, view_ids := none }
    collection := none
    extra := "overwritten" }

/-- Scenario for C4: root page holding only block a. -/
def rootPageC4 : PageResp :=
  { recordMap :=
      { block := [("a", blkAC4)], collection := none
        collection_view := none } }

/-- Scenario for C4: environment whose batch fetch answers a request for b
with a conflicting block under the already-known key a. -/
def envC4 : Env :=
  { parsePageId := fun _ => some "root"
    fetchPageById := fun _ _ => Except.ok rootPageC4
    fetchBlocks := fun _ _ => Except.ok
      { recordMap :=
          { block := [("a", blkA2C4)], collection := none
            collection_view := none } }
    getTableData := fun _ _ _ _ => Except.ok { rows := [], schema := "" } }

/-- Scenario for C8: first collection_view block, the one that gets
annotated. -/
def cvBlk1C8 : Block :=
  { value := some
      { id := "cv1", type := "collection_view", content := none
        view_ids := some ["v1", "v2"] }
    collection := none
    extra := "keep1" }

/-- Scenario for C8: second collection_view block. -/
def cvBlk2C8 : Block :=
  { value := some
      { id := "cv2", type := "collection_view", content := none
        view_ids := some ["v9"] }
    collection := none
    extra := "keep2" }

/-- Scenario for C8: third collection_view block. -/
def cvBlk3C8 : Block :=
  { value := some
      { id := "cv3", type := "collection_view", content := none
        view_ids := some [] }
    collection := none
    extra := "keep3" }

/-- Scenario for C8: root page with three collection_view blocks and a
collection plus view in its record map. -/
def rootPageC8 : PageResp :=
  { recordMap :=
      { block := [("cv1", cvBlk1C8), ("cv2", cvBlk2C8), ("cv3", cvBlk3C8)]
        collection := some [("rc", rcEntry)]
        collection_view := some [("rv", rvEntry)] } }

/-- Scenario for C8: the collection entry of the fetched collection page. -/
def ceC8 : CollEntry := { value := { id := "c1", name := "MyTable" } }

/-- Scenario for C8: the fetched collection page with a collection and two
view definitions. -/
def collPageC8 : PageResp :=
  { recordMap :=
      { block := []
        collection := some [("c1", ceC8)]
        collection_view := some
          [("v1", { value := { id := "v1", extra := "vdef1" } }),
           ("v2", { value := { id := "v2", extra := "vdef2" } })] } }

/-- Scenario for C8: environment serving the root page and the collection
page, with successful table data. -/
def envC8 : Env :=
  { parsePageId := fun _ => some "root"
    fetchPageById := fun id _ =>
      if id = some "cv1" then Except.ok collPageC8 else Except.ok rootPageC8
    fetchBlocks := fun _ _ => Except.ok { recordMap := emptyRM }
    getTableData := fun _ _ _ _ => Except.ok
      { rows := ["row1", "row2"], schema := "schemaC8" } }

/-- Scenario for C8: the annotation the resolver attaches to cv1. -/
def annC8 : ResolvedCollection :=
  { title := "MyTable"
    schema := "schemaC8"
    types := [some { id := "v1", extra := "vdef1" }]
    data := ["row1", "row2"] }

/-- Scenario for C9: the root page block referencing the never-returned
child x. -/
def rootBlkC9 : Block :=
  { value := some
      { id := "root", type := "page", content := some ["x"], view_ids := none }
    collection := none
    extra := "" }

/-- Scenario for C9: root page holding only the root block. -/
def rootPageC9 : PageResp :=
  { recordMap :=
      { block := [("root", rootBlkC9)], collection := none
        collection_view := none } }

/-- Scenario for C9: environment whose batch fetch omits the requested id x
from every response. -/
def envC9 : Env :=
  { parsePageId := fun _ => some "root"
    fetchPageById := fun _ _ => Except.ok rootPageC9
    fetchBlocks := fun _ _ => Except.ok { recordMap := emptyRM }
    getTableData := fun _ _ _ _ => Except.ok { rows := [], schema := "" } }

/-- Scenario for C10: a collection_view block in the root graph. -/
def cvBlkC10 : Block :=
  { value := some
      { id := "cv1", type := "collection_view", content := none
        view_ids := some ["v1"] }
    collection := none
    extra := "" }

/-- Scenario for C10: root page enabling the resolver. -/
def rootPageC10 : PageResp :=
  { recordMap :=
      { block := [("cv1", cvBlkC10)]
        collection := some [("rc", rcEntry)]
        collection_view := some [("rv", rvEntry)] } }

/-- Scenario for C10: the collection entry of the fetched collection page. -/
def ceC10 : CollEntry := { value := { id := "c1", name := "T" } }

/-- Scenario for C10: fetched collection page with a non-empty collection
map but no collection_view map. -/
def collPageC10 : PageResp :=
  { recordMap :=
      { block := []
        collection := some [("c1", ceC10)]
        collection_view := none } }

/-- Scenario for C10: environment serving the root page and the degenerate
collection page. -/
def envC10 : Env :=
  { parsePageId := fun _ => some "root"
    fetchPageById := fun id _ =>
      if id = some "cv1" then Except.ok collPageC10 else Except.ok rootPageC10
    fetchBlocks := fun _ _ => Except.ok { recordMap := emptyRM }
    getTableData := fun _ _ _ _ => Except.ok { rows := [], schema := "" } }

/-! Helper lemmas about the counter threading and the association-list
operations. -/

/-- The guard never decreases the counter. -/
theorem limitedApiCall_snd_mono {α : Type} (m c : Nat) (op : Except String α)
    (l : String) : c ≤ (limitedApiCall m c op l).2 := by
  unfold limitedApiCall
  by_cases h : m ≤ c
  · simp [h]
  · simp [h]

/-- The guard keeps the counter at or below the ceiling. -/
theorem limitedApiCall_snd_le {α : Type} (m c : Nat) (op : Except String α)
    (l : String) : c ≤ m → (limitedApiCall m c op l).2 ≤ m := by
  intro hcm
  unfold limitedApiCall
  by_cases h : m ≤ c
  · simpa [h] using hcm
  · simp [h]; omega

/-- Counter bounds transported through an equation on the guard's result. -/
theorem limitedApiCall_eq_bounds {α : Type} {m c : Nat} {op : Except String α}
    {l : String} {r : Except String α} {c2 : Nat}
    (h : limitedApiCall m c op l = (r, c2)) :
    c ≤ c2 ∧ (c ≤ m → c2 ≤ m) := by
  have h1 := limitedApiCall_snd_mono m c op l
  have h2 := limitedApiCall_snd_le m c op l
  rw [h] at h1 h2
  exact ⟨h1, h2⟩

/-- The expansion loop never decreases the counter. -/
theorem expandLoop_snd_mono (env : Env) (tok : String) (m : Nat)
    (pid : Option String) :
    ∀ (fuel it : Nat) (g : BlockGraph) (cnt : Nat),
      cnt ≤ (expandLoop env tok m pid fuel it g cnt).2 := by
  intro fuel
  induction fuel with
  | zero => intro it g cnt; simp [expandLoop]
  | succ n ih =>
    intro it g cnt
    rw [expandLoop]
    by_cases hp : (pendingBlocksOf g pid).isEmpty
    · simp [hp]
    · simp only [hp, Bool.false_eq_true, if_false]
      by_cases hb : m ≤ cnt
      · simp [hb]
      · simp only [hb, if_false]
        rcases hcall : limitedApiCall m cnt
            (Except.map (fun r => r.recordMap.block)
              (env.fetchBlocks (pendingBlocksOf g pid) tok))
            ("while fetching blocks batch " ++ toString (it + 1)) with ⟨res, cnt2⟩
        have hle := (limitedApiCall_eq_bounds hcall).1
        cases res with
        | error e => simp [hcall]; omega
        | ok nb =>
          simp only [hcall]
          exact Nat.le_trans hle (ih (it + 1) (jsMerge g nb) cnt2)

/-- The expansion loop keeps the counter at or below the ceiling. -/
theorem expandLoop_snd_le (env : Env) (tok : String) (m : Nat)
    (pid : Option String) :
    ∀ (fuel it : Nat) (g : BlockGraph) (cnt : Nat),
      cnt ≤ m → (expandLoop env tok m pid fuel it g cnt).2 ≤ m := by
  intro fuel
  induction fuel with
  | zero => intro it g cnt h; simpa [expandLoop] using h
  | succ n ih =>
    intro it g cnt h
    rw [expandLoop]
    by_cases hp : (pendingBlocksOf g pid).isEmpty
    · simpa [hp] using h
    · simp only [hp, Bool.false_eq_true, if_false]
      by_cases hb : m ≤ cnt
      · simpa [hb] using h
      · simp only [hb, if_false]
        rcases hcall : limitedApiCall m cnt
            (Except.map (fun r => r.recordMap.block)
              (env.fetchBlocks (pendingBlocksOf g pid) tok))
            ("while fetching blocks batch " ++ toString (it + 1)) with ⟨res, cnt2⟩
        have hle := (limitedApiCall_eq_bounds hcall).2 h
        cases res with
        | error e => simpa [hcall] using hle
        | ok nb =>
          simp only [hcall]
          exact ih (it + 1) (jsMerge g nb) cnt2 hle

/-- The expansion loop performs at most one guarded call per round. -/
theorem expandLoop_snd_le_fuel (env : Env) (tok : String) (m : Nat)
    (pid : Option String) :
    ∀ (fuel it : Nat) (g : BlockGraph) (cnt : Nat),
      (expandLoop env tok m pid fuel it g cnt).2 ≤ cnt + fuel := by
  intro fuel
  induction fuel with
  | zero => intro it g cnt; simp [expandLoop]
  | succ n ih =>
    intro it g cnt
    rw [expandLoop]
    by_cases hp : (pendingBlocksOf g pid).isEmpty
    · simp [hp]
    · simp only [hp, Bool.false_eq_true, if_false]
      by_cases hb : m ≤ cnt
      · simp [hb]
      · simp only [hb, if_false]
        rcases hcall : limitedApiCall m cnt
            (Except.map (fun r => r.recordMap.block)
              (env.fetchBlocks (pendingBlocksOf g pid) tok))
            ("while fetching blocks batch " ++ toString (it + 1)) with ⟨res, cnt2⟩
        have hcnt2 : cnt2 ≤ cnt + 1 := by
          have := congrArg Prod.snd hcall
          unfold limitedApiCall at this
          by_cases hmle : m ≤ cnt
          · simp [hmle] at this; omega
          · simp [hmle] at this; omega
        cases res with
        | error e => simp [hcall]; omega
        | ok nb =>
          simp only [hcall]
          have := ih (it + 1) (jsMerge g nb) cnt2
          omega

/-- Processing the fetched collection page never decreases the counter. -/
theorem processCollPage_snd_mono (env : Env) (tok : String) (m : Nat)
    (b : String) (g : BlockGraph) (collPage : PageResp) (cnt : Nat) :
    cnt ≤ (processCollPage env tok m b g collPage cnt).2 := by
  unfold processCollPage
  split
  case _ centry rest heq =>
    split
    · simp
    case _ viewMap heq2 =>
      by_cases hc : cnt < m
      · simp only [hc, if_true]
        rcases hcall : limitedApiCall m cnt
            (match viewMap.head?.map (fun p => p.2) with
              | none => Except.error
                  "Cannot read properties of undefined (reading 'value')"
              | some cv => env.getTableData centry.2 cv.value.id tok true)
            "while fetching table data" with ⟨res, cnt2⟩
        have hle := (limitedApiCall_eq_bounds hcall).1
        cases res with
        | error e => simp [hcall]; omega
        | ok td =>
          simp only [hcall]
          split
          · simpa using hle
          · split
            · simpa using hle
            · split
              · simpa using hle
              · simpa using hle
      · simp [hc]
  · simp
  · simp

/-- Processing the fetched collection page keeps the counter at or below the
ceiling. -/
theorem processCollPage_snd_le (env : Env) (tok : String) (m : Nat)
    (b : String) (g : BlockGraph) (collPage : PageResp) (cnt : Nat) :
    cnt ≤ m → (processCollPage env tok m b g collPage cnt).2 ≤ m := by
  intro h
  unfold processCollPage
  split
  case _ centry rest heq =>
    split
    · simpa using h
    case _ viewMap heq2 =>
      by_cases hc : cnt < m
      · simp only [hc, if_true]
        rcases hcall : limitedApiCall m cnt
            (match viewMap.head?.map (fun p => p.2) with
              | none => Except.error
                  "Cannot read properties of undefined (reading 'value')"
              | some cv => env.getTableData centry.2 cv.value.id tok true)
            "while fetching table data" with ⟨res, cnt2⟩
        have hle := (limitedApiCall_eq_bounds hcall).2 h
        cases res with
        | error e => simpa [hcall] using hle
        | ok td =>
          simp only [hcall]
          split
          · simpa using hle
          · split
            · simpa using hle
            · split
              · simpa using hle
              · simpa using hle
      · simpa [hc] using h
  · simpa using h
  · simpa using h

/-- The resolver never decreases the counter. -/
theorem resolveCollection_snd_mono (env : Env) (tok : String) (m : Nat)
    (co : Option CollEntry) (cv : Option ViewEntry) (g : BlockGraph)
    (cnt : Nat) : cnt ≤ (resolveCollection env tok m co cv g cnt).2 := by
  unfold resolveCollection
  split
  · by_cases hc : cnt < m
    · simp only [hc, if_true]
      split
      · simp
      case _ b rest heq =>
        rcases hcall : limitedApiCall m cnt (env.fetchPageById (some b) tok)
            "while fetching collection page" with ⟨res, cnt2⟩
        have hle := (limitedApiCall_eq_bounds hcall).1
        cases res with
        | error e => simp [hcall]; omega
        | ok collPage =>
          simp only [hcall]
          exact Nat.le_trans hle
            (processCollPage_snd_mono env tok m b g collPage cnt2)
    · simp [hc]
  · simp

/-- The resolver keeps the counter at or below the ceiling. -/
theorem resolveCollection_snd_le (env : Env) (tok : String) (m : Nat)
    (co : Option CollEntry) (cv : Option ViewEntry) (g : BlockGraph)
    (cnt : Nat) : cnt ≤ m → (resolveCollection env tok m co cv g cnt).2 ≤ m := by
  intro h
  unfold resolveCollection
  split
  · by_cases hc : cnt < m
    · simp only [hc, if_true]
      split
      · simpa using h
      case _ b rest heq =>
        rcases hcall : limitedApiCall m cnt (env.fetchPageById (some b) tok)
            "while fetching collection page" with ⟨res, cnt2⟩
        have hle := (limitedApiCall_eq_bounds hcall).2 h
        cases res with
        | error e => simpa [hcall] using hle
        | ok collPage =>
          simp only [hcall]
          exact processCollPage_snd_le env tok m b g collPage cnt2 hle
    · simpa [hc] using h
  · simpa using h

/-- The whole body keeps the counter at or below the ceiling. -/
theorem pageRouteBody_snd_le (m : Nat) (env : Env) (req : HandlerRequest) :
    (pageRouteBody m env req).2 ≤ m := by
  unfold pageRouteBody
  rcases hcall : limitedApiCall m 0
      (env.fetchPageById (env.parsePageId req.pageId) req.notionToken)
      "while fetching initial page" with ⟨res, cnt1⟩
  have hle1 := (limitedApiCall_eq_bounds hcall).2 (Nat.zero_le m)
  cases res with
  | error e => simpa [hcall] using hle1
  | ok page =>
    simp only [hcall]
    rcases hloop : expandLoop env req.notionToken m
        (env.parsePageId req.pageId) MAX_ITERATIONS 0 page.recordMap.block
        cnt1 with ⟨res2, cnt2⟩
    have hle2 := expandLoop_snd_le env req.notionToken m
      (env.parsePageId req.pageId) MAX_ITERATIONS 0 page.recordMap.block cnt1
      hle1
    rw [hloop] at hle2
    cases res2 with
    | error e => simpa [hloop] using hle2
    | ok g2 =>
      simp only [hloop]
      exact resolveCollection_snd_le env req.notionToken m _ _ g2 cnt2 hle2

/-- JavaScript lookup in a concatenation hits the left part first. -/
theorem lookupKey_append_left {α : Type} (xs ys : List (String × α))
    (k : String) (v : α) (h : lookupKey xs k = some v) :
    lookupKey (xs ++ ys) k = some v := by
  induction xs with
  | nil => simp [lookupKey] at h
  | cons p rest ih =>
    rw [List.cons_append]
    unfold lookupKey at h ⊢
    by_cases hp : p.1 = k
    · rw [if_pos hp] at h ⊢; exact h
    · rw [if_neg hp] at h ⊢; exact ih h

/-- A successful lookup names a key actually bound in the list. -/
theorem lookupKey_eq_some_mem {α : Type} (xs : List (String × α)) (k : String)
    (v : α) (h : lookupKey xs k = some v) : ∃ q ∈ xs, q.1 = k := by
  induction xs with
  | nil => simp [lookupKey] at h
  | cons p rest ih =>
    unfold lookupKey at h
    by_cases hp : p.1 = k
    · exact ⟨p, List.mem_cons_self p rest, hp⟩
    · rw [if_neg hp] at h
      obtain ⟨q, hq, hqk⟩ := ih h
      exact ⟨q, List.mem_cons_of_mem p hq, hqk⟩

/-- The override part of the spread merge keeps the value of a key the second
object does not bind. -/
theorem lookupKey_mapOverride {α : Type} (b : List (String × α)) (k : String)
    (v : α) (hb : lookupKey b k = none) :
    ∀ (a : List (String × α)), lookupKey a k = some v →
      lookupKey (a.map (fun p => (p.1, (lookupKey b p.1).getD p.2))) k =
        some v := by
  intro a
  induction a with
  | nil => intro h; simp [lookupKey] at h
  | cons p rest ih =>
    intro h
    rw [List.map_cons]
    unfold lookupKey at h ⊢
    by_cases hp : p.1 = k
    · rw [if_pos hp] at h
      simp only [if_pos hp]
      rw [hp, hb]
      simpa using h
    · rw [if_neg hp] at h
      simp only [if_neg hp]
      exact ih h

/-- Every pending candidate of a round is absent from the current graph. -/
theorem pendingBlocksOf_absent (g : BlockGraph) (pid : Option String) :
    ∀ id ∈ pendingBlocksOf g pid, lookupKey g id = none := by
  intro id hid
  unfold pendingBlocksOf at hid
  have hid2 := List.take_subset _ _ hid
  rw [List.mem_flatMap] at hid2
  obtain ⟨k, _, hcand⟩ := hid2
  unfold candidatesOf at hcand
  rcases hL : lookupKey g k with _ | blk
  · simp [hL] at hcand
  · simp only [hL] at hcand
    rcases hv : blk.value with _ | v
    · simp [hv] at hcand
    · simp only [hv] at hcand
      rcases hc : v.content with _ | content
      · simp [hc] at hcand
      · simp only [hc] at hcand
        by_cases hskip : v.type = "page" ∧ some k ≠ pid
        · simp [hskip] at hcand
        · rw [if_neg hskip] at hcand
          rw [List.mem_filter] at hcand
          simpa [Option.isNone_iff_eq_none] using hcand.2

/-- The final counter of pageRouteWith is the body's final counter. -/
theorem pageRouteWith_snd (m : Nat) (env : Env) (req : HandlerRequest)
    (c0 : Nat) : (pageRouteWith m env req c0).2 = (pageRouteBody m env req).2 := by
  unfold pageRouteWith
  rcases hb : pageRouteBody m env req with ⟨res, cnt⟩
  cases res <;> simp [hb]

/-! The claim theorems. -/

/-- C1: with the counter at or above the ceiling of 45, the guard fails with
the budget error carrying the label, leaves the counter unchanged and ignores
the operation (the result is the same for every operation); below the
ceiling it increments the counter exactly once and returns or propagates the
operation's outcome unchanged. -/
theorem C1_limitedApiCall_guard {α : Type} (cnt : Nat) (op : Except String α)
    (label : String) :
    (MAX_API_CALLS ≤ cnt →
      limitedApiCall MAX_API_CALLS cnt op label =
        (Except.error ("Too many API calls: " ++ label), cnt)) ∧
    (cnt < MAX_API_CALLS →
      limitedApiCall MAX_API_CALLS cnt op label = (op, cnt + 1)) := by
  constructor
  · intro h
    unfold limitedApiCall
    rw [if_pos h]
  · intro h
    unfold limitedApiCall
    rw [if_neg (by omega)]

/-- Witness for C1 at the concrete counters 45 and 3. -/
theorem C1_witness :
    limitedApiCall MAX_API_CALLS 45 (Except.ok (0 : Nat)) "opA" =
      (Except.error ("Too many API calls: " ++ "opA"), 45) ∧
    limitedApiCall MAX_API_CALLS 3 (Except.ok (7 : Nat)) "opB" =
      (Except.ok 7, 4) :=
  ⟨(C1_limitedApiCall_guard 45 (Except.ok 0) "opA").1 (by decide),
   (C1_limitedApiCall_guard 3 (Except.ok 7) "opB").2 (by decide)⟩

/-- C2: the counter is reset at the start of every pageRoute invocation (the
result does not depend on the incoming global counter value), the final
counter never exceeds the ceiling of 45, every component only ever increases
the counter, and a guarded call attempted with the counter at the ceiling
fails with the budget error without consulting its operation. -/
theorem C2_budget_reset_monotone_capped (env : Env) (req : HandlerRequest)
    (c c2 : Nat) :
    pageRoute env req c = pageRoute env req c2 ∧
    (pageRoute env req c).2 ≤ MAX_API_CALLS ∧
    (∀ (fuel it : Nat) (g : BlockGraph) (cnt : Nat),
      cnt ≤ (expandLoop env req.notionToken MAX_API_CALLS
        (env.parsePageId req.pageId) fuel it g cnt).2) ∧
    (∀ (co : Option CollEntry) (cv : Option ViewEntry) (g : BlockGraph)
      (cnt : Nat),
      cnt ≤ (resolveCollection env req.notionToken MAX_API_CALLS co cv g
        cnt).2) ∧
    (∀ (op : Except String PageResp) (l : String) (cnt : Nat),
      cnt ≤ (limitedApiCall MAX_API_CALLS cnt op l).2) ∧
    (∀ (op : Except String PageResp) (l : String),
      limitedApiCall MAX_API_CALLS MAX_API_CALLS op l =
        (Except.error ("Too many API calls: " ++ l), MAX_API_CALLS)) := by
  refine ⟨rfl, ?_, ?_, ?_, ?_, ?_⟩
  · unfold pageRoute
    rw [pageRouteWith_snd]
    exact pageRouteBody_snd_le MAX_API_CALLS env req
  · intro fuel it g cnt
    exact expandLoop_snd_mono env req.notionToken MAX_API_CALLS
      (env.parsePageId req.pageId) fuel it g cnt
  · intro co cv g cnt
    exact resolveCollection_snd_mono env req.notionToken MAX_API_CALLS co cv
      g cnt
  · intro op l cnt
    exact limitedApiCall_snd_mono MAX_API_CALLS cnt op l
  · intro op l
    unfold limitedApiCall
    rw [if_pos (Nat.le_refl MAX_API_CALLS)]

/-- C3 counterexample: with ceiling 2, the root fetch and one block-batch
fetch consuming both slots, and a collection plus collection view in the root
record map, pageRoute returns a 200 success with the expanded graph and final
counter 2 — not the claimed 429 BudgetExceeded from the resolver. -/
theorem C3_counterexample :
    pageRouteWith 2 envC3 reqX 0 =
      ({ body := Payload.blocks [("cv1", cvBlkC3), ("child1", childBlkC3)]
         status := 200 }, 2) ∧
    (pageRouteWith 2 envC3 reqX 0).1.status ≠ 429 := by decide

/-- C3 amended: in that scenario the resolver is skipped by its budget guard
before issuing any call, so the request succeeds with the partial graph; in
general, whenever the budget has no remaining capacity the resolver returns
the graph unchanged with the counter unchanged, for any collection and view
inputs — its first guarded call never runs, so it never raises
BudgetExceeded. -/
theorem C3_amended_resolver_skipped :
    pageRouteWith 2 envC3 reqX 0 =
      ({ body := Payload.blocks [("cv1", cvBlkC3), ("child1", childBlkC3)]
         status := 200 }, 2) ∧
    (∀ (env : Env) (tok : String) (m : Nat) (co : Option CollEntry)
      (cv : Option ViewEntry) (g : BlockGraph) (cnt : Nat), m ≤ cnt →
      resolveCollection env tok m co cv g cnt = (Except.ok g, cnt)) := by
  constructor
  · decide
  · intro env tok m co cv g cnt hmc
    unfold resolveCollection
    rcases co with _ | ce <;> rcases cv with _ | ve
    · rfl
    · rfl
    · rfl
    · have hnlt : ¬ cnt < m := by omega
      simp [hnlt]

/-- Witness for C3's amended statement applying its general part with the
budget exhausted at 2 of 2. -/
theorem C3_witness :
    resolveCollection envC3 "tok" 2 none none [] 2 = (Except.ok [], 2) :=
  C3_amended_resolver_skipped.2 envC3 "tok" 2 none none [] 2 (by decide)

/-- C4 counterexample: the root graph holds key a, the batch fetch for the
unknown child b answers with a different block under the existing key a, and
the merge replaces the stored value — the claim fails for arbitrary
batch-fetch responses. -/
theorem C4_counterexample :
    lookupKey rootPageC4.recordMap.block "a" = some blkAC4 ∧
    pageRouteBody 45 envC4 reqX = (Except.ok [("a", blkA2C4)], 2) ∧
    ¬ blkA2C4 = blkAC4 := by decide

/-- C4 amended: a round's merge preserves the value of every key already in
the graph provided every key of the fetched response is absent from the
graph — which holds when the response binds only the requested candidate
ids, since every pending candidate of a round is absent from the graph; for
responses that rebind an existing key the spread merge overwrites it. -/
theorem C4_merge_adds_new_keys_only (g new : BlockGraph) (pid : Option String)
    (k : String) (v : Block) (hk : lookupKey g k = some v)
    (hnew : ∀ p ∈ new, lookupKey g p.1 = none) :
    lookupKey (jsMerge g new) k = some v ∧
    (∀ id ∈ pendingBlocksOf g pid, lookupKey g id = none) := by
  constructor
  · have hbk : lookupKey new k = none := by
      rcases h2 : lookupKey new k with _ | w
      · rfl
      · obtain ⟨q, hq, hqk⟩ := lookupKey_eq_some_mem new k w h2
        have h3 := hnew q hq
        rw [hqk, hk] at h3
        simp at h3
    unfold jsMerge
    exact lookupKey_append_left _ _ _ _ (lookupKey_mapOverride new k v hbk g hk)
  · exact pendingBlocksOf_absent g pid

/-- Witness for C4's amended statement on a concrete graph and disjoint
response. -/
theorem C4_witness :
    lookupKey (jsMerge [("a", blkAC4)] [("b", childBlkC3)]) "a" =
      some blkAC4 :=
  (C4_merge_adds_new_keys_only [("a", blkAC4)] [("b", childBlkC3)]
    (some "root") "a" blkAC4 (by decide) (by decide)).1

/-- C5: the expansion loop makes at most one guarded call per remaining
round, selects at most 20 candidates per round, stops without consuming a
round or a call when no candidates remain, and when the budget has no
remaining capacity terminates early returning the partial graph as a
success; the round cap wired in at the call site is 2. -/
theorem C5_expansion_bounded (env : Env) (tok : String) (m : Nat)
    (pid : Option String) (fuel it : Nat) (g : BlockGraph) (cnt : Nat) :
    (expandLoop env tok m pid fuel it g cnt).2 ≤ cnt + fuel ∧
    (pendingBlocksOf g pid).length ≤ MAX_BLOCKS_PER_ITERATION ∧
    (pendingBlocksOf g pid = [] →
      expandLoop env tok m pid fuel it g cnt = (Except.ok g, cnt)) ∧
    (m ≤ cnt → expandLoop env tok m pid fuel it g cnt = (Except.ok g, cnt)) ∧
    MAX_ITERATIONS = 2 := by
  refine ⟨expandLoop_snd_le_fuel env tok m pid fuel it g cnt, ?_, ?_, ?_, rfl⟩
  · unfold pendingBlocksOf
    simp [List.length_take]
  · intro hp
    cases fuel with
    | zero => rfl
    | succ n =>
      rw [expandLoop]
      simp [hp]
  · intro hm
    cases fuel with
    | zero => rfl
    | succ n =>
      rw [expandLoop]
      by_cases hp : (pendingBlocksOf g pid).isEmpty
      · simp [hp]
      · simp [hp, hm]

/-- Witness for C5 at concrete inputs: the empty graph yields no candidates
and an immediate fixed point, and an exhausted budget returns the graph
unchanged as a success. -/
theorem C5_witness :
    expandLoop envC9 "tok" 45 (some "root") 2 0 [] 0 = (Except.ok [], 0) ∧
    expandLoop envC9 "tok" 0 (some "root") 2 0 [("root", rootBlkC9)] 0 =
      (Except.ok [("root", rootBlkC9)], 0) :=
  ⟨(C5_expansion_bounded envC9 "tok" 45 (some "root") 2 0 [] 0).2.2.1
      (by decide),
   (C5_expansion_bounded envC9 "tok" 0 (some "root") 2 0
      [("root", rootBlkC9)] 0).2.2.2.1 (by decide)⟩

/-- C6: the catch handler always produces an error payload with a non-empty
message (the thrown message, or a default when it is empty), classifies it
429 exactly when the message contains the budget-exceeded or the upstream
over-quota substring and 500 otherwise; and every pageRoute outcome is
either a 200 success or the classifier applied to some thrown message. -/
theorem C6_error_classifier (e : String) (m : Nat) (env : Env)
    (req : HandlerRequest) (c : Nat) :
    (classifyError e).body =
      Payload.error (if e = "" then defaultErrorMessage else e) ∧
    (if e = "" then defaultErrorMessage else e) ≠ "" ∧
    ((strContains (if e = "" then defaultErrorMessage else e)
        "Too many API calls" ||
      strContains (if e = "" then defaultErrorMessage else e)
        "Too many subrequests") = true → (classifyError e).status = 429) ∧
    ((strContains (if e = "" then defaultErrorMessage else e)
        "Too many API calls" ||
      strContains (if e = "" then defaultErrorMessage else e)
        "Too many subrequests") = false → (classifyError e).status = 500) ∧
    ((∃ g2, (pageRouteWith m env req c).1 = createResponse g2) ∨
      (∃ e2, (pageRouteWith m env req c).1 = classifyError e2)) := by
  refine ⟨rfl, ?_, ?_, ?_, ?_⟩
  · by_cases he : e = ""
    · simp [he, defaultErrorMessage]
    · simp [he]
  · intro h
    simp [classifyError, h]
  · intro h
    simp [classifyError, h]
  · unfold pageRouteWith
    rcases hb : pageRouteBody m env req with ⟨res, cnt⟩
    cases res with
    | ok g2 => exact Or.inl ⟨g2, by simp [hb]⟩
    | error e2 => exact Or.inr ⟨e2, by simp [hb]⟩

/-- Witness for C6: a message carrying the upstream over-quota signal is
classified 429, an unrelated message 500. -/
theorem C6_witness :
    (classifyError "Too many subrequests.").status = 429 ∧
    (classifyError "boom").status = 500 :=
  ⟨(C6_error_classifier "Too many subrequests." 45 envC9 reqX 0).2.2.1
      (by decide),
   (C6_error_classifier "boom" 45 envC9 reqX 0).2.2.2.1 (by decide)⟩

/-- C7: within a round's candidate computation, a block of type page whose id
differs from the root page id contributes no candidates even with a
non-empty content list, and a block with an absent or empty content list (or
no value at all) contributes no candidates. -/
theorem C7_candidate_exclusions (g : BlockGraph) (pid : Option String)
    (k : String) (blk : Block) (h : lookupKey g k = some blk) :
    (∀ v, blk.value = some v → v.type = "page" → some k ≠ pid →
      candidatesOf g pid k = []) ∧
    (∀ v, blk.value = some v → (v.content = none ∨ v.content = some []) →
      candidatesOf g pid k = []) ∧
    (blk.value = none → candidatesOf g pid k = []) := by
  refine ⟨?_, ?_, ?_⟩
  · intro v hv htype hne
    unfold candidatesOf
    simp only [h, hv]
    rcases hc : v.content with _ | content
    · rfl
    · simp [htype, hne]
  · intro v hv hc
    unfold candidatesOf
    simp only [h, hv]
    rcases hc with hc | hc
    · simp [hc]
    · simp [hc]
  · intro hv
    unfold candidatesOf
    simp [h, hv]

/-- Scenario for the C7 witness: a foreign page block with children. -/
def foreignBlkC7 : Block :=
  { value := some
      { id := "p1", type := "page", content := some ["c1", "c2"]
        view_ids := none }
    collection := none
    extra := "" }

/-- Scenario for the C7 witness: a block with an empty content list. -/
def emptyBlkC7 : Block :=
  { value := some
      { id := "e1", type := "text", content := some [], view_ids := none }
    collection := none
    extra := "" }

/-- Scenario for the C7 witness: graph holding both blocks. -/
def gC7 : BlockGraph := [("p1", foreignBlkC7), ("e1", emptyBlkC7)]

/-- Witness for C7 on the concrete graph: the foreign page block and the
empty-content block both contribute no candidates. -/
theorem C7_witness :
    candidatesOf gC7 (some "root") "p1" = [] ∧
    candidatesOf gC7 (some "root") "e1" = [] :=
  ⟨(C7_candidate_exclusions gC7 (some "root") "p1" foreignBlkC7
      (by decide)).1
      { id := "p1", type := "page", content := some ["c1", "c2"]
        view_ids := none }
      (by decide) (by decide) (by decide),
   (C7_candidate_exclusions gC7 (some "root") "e1" emptyBlkC7 (by decide)).2.1
      { id := "e1", type := "text", content := some [], view_ids := none }
      (by decide) (Or.inr (by decide))⟩

/-- C8: with three collection_view blocks in the graph and a successfully
resolved collection, exactly the first one receives the resolved annotation
while the other two keep their original unannotated shape; the annotation is
additive (the value and the opaque extra field of the annotated block are
preserved) and the output graph differs from the input in that single
binding only. -/
theorem C8_collection_singularity :
    pageRouteBody 45 envC8 reqX =
      (Except.ok [("cv1", { cvBlk1C8 with collection := some annC8 }),
        ("cv2", cvBlk2C8), ("cv3", cvBlk3C8)], 3) ∧
    ({ cvBlk1C8 with collection := some annC8 }).value = cvBlk1C8.value ∧
    ({ cvBlk1C8 with collection := some annC8 }).extra = cvBlk1C8.extra ∧
    cvBlk2C8.collection = none ∧ cvBlk3C8.collection = none := by decide

/-- C9: when the batch fetch omits the requested child id x, no error is
raised and the graph lacks the key; the id is selected again as a candidate
of the next round because it is still absent (the final counter 3 shows both
rounds issued their guarded fetch), and after the round cap it is silently
dropped with a 200 success. -/
theorem C9_omitted_child_retried_then_dropped :
    pageRouteBody 45 envC9 reqX = (Except.ok [("root", rootBlkC9)], 3) ∧
    lookupKey [("root", rootBlkC9)] "x" = none ∧
    pendingBlocksOf [("root", rootBlkC9)] (some "root") = ["x"] ∧
    (pageRouteWith 45 envC9 reqX 0).1.status = 200 := by decide

/-- C10: when the fetched collection page has a non-empty collection map but
no collection_view map, processing it throws the undefined-object error
rather than stopping silently, and the concrete request returns a
500-classified error payload carrying that message instead of the assembled
graph. -/
theorem C10_missing_view_map (env : Env) (tok : String) (m : Nat) (b : String)
    (g : BlockGraph) (collPage : PageResp) (cnt : Nat)
    (centry : String × CollEntry) (rest : List (String × CollEntry))
    (h1 : collPage.recordMap.collection = some (centry :: rest))
    (h2 : collPage.recordMap.collection_view = none) :
    processCollPage env tok m b g collPage cnt =
      (Except.error "Cannot convert undefined or null to object", cnt) ∧
    pageRouteWith 45 envC10 reqX 0 =
      ({ body := Payload.error "Cannot convert undefined or null to object"
         status := 500 }, 2) := by
  constructor
  · unfold processCollPage
    rw [h1, h2]
  · decide

/-- Witness for C10 at the concrete degenerate collection page. -/
theorem C10_witness :
    processCollPage envC10 "tok" 45 "cv1" [] collPageC10 2 =
      (Except.error "Cannot convert undefined or null to object", 2) :=
  (C10_missing_view_map envC10 "tok" 45 "cv1" [] collPageC10 2 ("c1", ceC10)
    [] rfl rfl).1

end NotionWorker
